import Mathlib

/-!
Shallow embedding of `src/ext/jq/jq_ext.c` (the jq Ruby C extension).

The external collaborators (the jq engine: `jq_init`, `jq_compile`,
`jq_get_error_message`, `jq_start`, `jq_next`, `jq_teardown`; and the jv
JSON layer: `jv_parse`, `jv_dump_string`) are modelled abstractly by an
`Engine` structure.  The four functions of the C file —
`jv_to_json_string`, `raise_jq_error`, `rb_jq_filter_impl`,
`rb_jq_filter`, `rb_jq_validate_filter` — are translated line by line.

A `rb_raise` (a longjmp out of the C function) is modelled as
`Except.error`; the observable resource events of one request
(`jq_init` success, `jv_parse` call, `jq_start` call, `jq_teardown`
call) are recorded in chronological order in a `List Event`, so that
claims about teardown-before-raise and about stages never reached are
statable.
-/

/-- The jv value model: a tagged JSON value or an invalid/error marker
carrying an optional message value (the message is itself a jv).  Valid
non-string values are abstract (`nonstr`), identified by a tag: the
claims only ever inspect whether a valid value is a string
(`jv_get_kind(v) == JV_KIND_STRING`) and, for strings, their content. -/
inductive Jv where
  | str : String → Jv
  | nonstr : Nat → Jv
  | invalid : Option Jv → Jv

namespace Jv

/-- Translation of `jv_is_valid`. -/
def isValid : Jv → Bool
  | .invalid _ => false
  | _ => true

/-- Translation of the test `jv_get_kind(v) == JV_KIND_STRING`. -/
def kindIsString : Jv → Bool
  | .str _ => true
  | _ => false

/-- Translation of `jv_string_value` together with `jv_string_length_bytes` /
`rb_utf8_str_new`: the UTF-8 content of a string value.  Only called on
string values in the C code; other cases are unreachable there. -/
def strContent : Jv → String
  | .str s => s
  | _ => ""

/-- Translation of `jv_invalid_has_msg`. -/
def invalidHasMsg : Jv → Bool
  | .invalid (some _) => true
  | _ => false

/-- Translation of `jv_invalid_get_msg` (consumes the invalid value, yields the
message value).  Only called after `jv_invalid_has_msg` succeeded. -/
def invalidGetMsg : Jv → Jv
  | .invalid (some m) => m
  | _ => .invalid none

end Jv

/-- The abstract external engine + JSON layer of one process:
`initOk` — whether `jq_init` returns a non-NULL state;
`compileOk` — whether `jq_compile` of a filter source succeeds;
`compileErr` — the `jq_get_error_message` diagnostic after a failed
compile of that source;
`parse` — `jv_parse` of an input text;
`stream` — the successive values `jq_next` yields (after `jq_start`
of a parsed input under a compiled filter); once the list is exhausted
`jq_next` yields `Jv.invalid none` forever;
`dump` — `jv_dump_string value flags`, flags modelled as the two
booleans (pretty, sorted) the C code can set. -/
structure Engine where
  initOk : Bool
  compileOk : String → Bool
  compileErr : String → Jv
  parse : String → Jv
  stream : String → Jv → List Jv
  dump : Jv → Bool → Bool → Jv

/-- Behaviour of `jq_next` on a modelled stream: the next value, or the
no-message invalid end marker when the stream is exhausted. -/
def headNext : List Jv → Jv
  | [] => .invalid none
  | v :: _ => v

/-- The Ruby exception classes the extension raises, each with its
message: `rb_eJQError`, `rb_eJQCompileError`, `rb_eJQParseError`,
`rb_eJQRuntimeError`, and the host-level `rb_eTypeError` from
`Check_Type`. -/
inductive RbErr where
  | jqError : String → RbErr
  | compileError : String → RbErr
  | parseError : String → RbErr
  | runtimeError : String → RbErr
  | typeError : String → RbErr
deriving DecidableEq, Repr

/-- The three jq error kinds `raise_jq_error` can be handed
(its `exception_class` argument). -/
inductive ErrKind where
  | parseK
  | runtimeK
  | compileK
deriving DecidableEq, Repr

/-- Build the `RbErr` for an error kind and message
(the `rb_raise(exception_class, "%s", msg)` call). -/
def mkErr : ErrKind → String → RbErr
  | .parseK, m => .parseError m
  | .runtimeK, m => .runtimeError m
  | .compileK, m => .compileError m

/-- A successful Ruby return value of the extension: a string, an
array of strings, or `Qtrue`. -/
inductive RbResult where
  | str : String → RbResult
  | list : List String → RbResult
  | tru : RbResult
deriving DecidableEq, Repr

/-- Observable resource events of one request, in chronological
order: successful `jq_init`, the `jv_parse` call, the `jq_start`
call, the `jq_teardown` call. -/
inductive Event where
  | initE
  | parseE
  | startE
  | teardownE
deriving DecidableEq, Repr

/-- Translation of `jv_to_json_string(value, raw, compact, sort)` from
src/ext/jq/jq_ext.c lines 29–61.  Flags: `JV_PRINT_PRETTY` iff
`!compact`, `JV_PRINT_SORTED` iff `sort`.  If `raw` and the value is a
string, its content is returned directly; otherwise the value is
serialized with `jv_dump_string`, and if that yields an invalid value
the function raises `JQ::RuntimeError` (an `rb_raise`, i.e. a longjmp
out — no caller code after the call site runs). -/
def jv_to_json_string (dump : Jv → Bool → Bool → Jv) (value : Jv)
    (raw compact sort : Bool) : Except RbErr String :=
  if raw && value.kindIsString then
    .ok value.strContent
  else
    let json := dump value (!compact) sort
    if !json.isValid then
      .error (.runtimeError "Failed to convert result to JSON")
    else
      .ok json.strContent

/-- Translation of `raise_jq_error(error_value, exception_class)` from
src/ext/jq/jq_ext.c lines 69–83: if the error value is invalid or not
a string, raise the class with the fixed message "Unknown jq error";
otherwise raise it with the string's content. -/
def raise_jq_error (error_value : Jv) (exception_class : ErrKind) : RbErr :=
  if !error_value.isValid || !error_value.kindIsString then
    mkErr exception_class "Unknown jq error"
  else
    mkErr exception_class error_value.strContent

/-- The result-collection loop of multiple-output mode
(src/ext/jq/jq_ext.c lines 149–153): pull values while valid,
formatting and appending each; stop at the first invalid value, which
becomes the terminal marker.  A formatting failure raises out of the
loop (and out of `rb_jq_filter_impl`) directly. -/
def multiLoop (dump : Jv → Bool → Bool → Jv) (raw compact sort : Bool) :
    List Jv → Except RbErr (List String × Jv)
  | [] => .ok ([], .invalid none)
  | v :: rest =>
    if v.isValid then
      match jv_to_json_string dump v raw compact sort with
      | .error e => .error e
      | .ok s =>
        match multiLoop dump raw compact sort rest with
        | .error e => .error e
        | .ok (l, t) => .ok (s :: l, t)
    else
      .ok ([], v)

/-- Translation of `rb_jq_filter_impl` from src/ext/jq/jq_ext.c lines 96–182,
translated branch by branch.  The second component is the chronological
event list; an `Except.error` result is the `rb_raise` that ends the
request, occurring after every event recorded. -/
def rb_jq_filter_impl (e : Engine) (json_str filter_str : String)
    (raw_output compact_output sort_keys multiple_outputs : Bool) :
    Except RbErr RbResult × List Event :=
  if !e.initOk then
    (.error (.jqError "Failed to initialize jq"), [])
  else if !e.compileOk filter_str then
    let error := e.compileErr filter_str
    if error.isValid && error.kindIsString then
      (.error (.compileError error.strContent), [.initE, .teardownE])
    else
      (.error (.compileError "Syntax error in jq filter"), [.initE, .teardownE])
  else
    let input := e.parse json_str
    if !input.isValid then
      if input.invalidHasMsg then
        (.error (raise_jq_error input.invalidGetMsg .parseK),
         [.initE, .parseE, .teardownE])
      else
        (.error (.parseError "Invalid JSON input"),
         [.initE, .parseE, .teardownE])
    else
      let s := e.stream filter_str input
      if multiple_outputs then
        match multiLoop e.dump raw_output compact_output sort_keys s with
        | .error er =>
          -- rb_raise inside jv_to_json_string: jq_teardown is NOT reached
          (.error er, [.initE, .parseE, .startE])
        | .ok (results, result) =>
          if result.invalidHasMsg then
            (.error (raise_jq_error result.invalidGetMsg .runtimeK),
             [.initE, .parseE, .startE, .teardownE])
          else
            (.ok (.list results), [.initE, .parseE, .startE, .teardownE])
      else
        let result := headNext s
        if result.isValid then
          match jv_to_json_string e.dump result raw_output compact_output sort_keys with
          | .error er =>
            -- rb_raise inside jv_to_json_string: jq_teardown is NOT reached
            (.error er, [.initE, .parseE, .startE])
          | .ok str =>
            (.ok (.str str), [.initE, .parseE, .startE, .teardownE])
        else if result.invalidHasMsg then
          (.error (raise_jq_error result.invalidGetMsg .runtimeK),
           [.initE, .parseE, .startE, .teardownE])
        else
          (.ok (.str "null"), [.initE, .parseE, .startE, .teardownE])

/-- A Ruby value, as far as the option handling of `rb_jq_filter`
inspects one: `nil`, a boolean, a string, a hash with symbol keys, or
anything else (`other`). -/
inductive RVal where
  | nil : RVal
  | bool : Bool → RVal
  | str : String → RVal
  | hash : List (String × RVal) → RVal
  | other : RVal

/-- Ruby truthiness `RTEST`: everything but `nil` and `false`. -/
def RTEST : RVal → Bool
  | .nil => false
  | .bool false => false
  | _ => true

/-- Ruby `NIL_P`. -/
def NIL_P : RVal → Bool
  | .nil => true
  | _ => false

/-- Translation of `rb_hash_aref` with a symbol key: the stored value, or `nil` when
the key is absent. -/
def hashAref (h : List (String × RVal)) (k : String) : RVal :=
  match h.find? (fun p => p.1 = k) with
  | some p => p.2
  | none => .nil

/-- Translation of `rb_jq_filter` from src/ext/jq/jq_ext.c lines 252–286, after the
two string arguments have been checked (they are modelled as Lean
strings): the options argument is `nil` (absent) or must be a hash
(`Check_Type(opts, T_HASH)` raises `TypeError` otherwise, before any
engine work); the four option toggles default to
raw_output=false, compact_output=true, sort_keys=false,
multiple_outputs=false, with `compact_output` only overridden by a
non-nil entry and the other three set by truthiness. -/
def rb_jq_filter (e : Engine) (json_str filter_str : String) (opts : RVal) :
    Except RbErr RbResult × List Event :=
  if NIL_P opts then
    rb_jq_filter_impl e json_str filter_str false true false false
  else
    match opts with
    | .hash h =>
      let raw_output := RTEST (hashAref h "raw_output")
      let compact_output :=
        if !NIL_P (hashAref h "compact_output") then
          RTEST (hashAref h "compact_output")
        else true
      let sort_keys := RTEST (hashAref h "sort_keys")
      let multiple_outputs := RTEST (hashAref h "multiple_outputs")
      rb_jq_filter_impl e json_str filter_str
        raw_output compact_output sort_keys multiple_outputs
    | _ => (.error (.typeError "wrong argument type (expected Hash)"), [])

/-- Translation of `rb_jq_validate_filter` from src/ext/jq/jq_ext.c lines 338–367:
check the argument is a string (`Check_Type`), init, compile, teardown,
return `Qtrue`; a failed compile raises `JQ::CompileError` (after
teardown) with the engine's diagnostic when it is a valid string, and
with "Syntax error in jq filter" otherwise.  No input is ever parsed
and no evaluation is ever started. -/
def rb_jq_validate_filter (e : Engine) (filter : RVal) :
    Except RbErr RbResult × List Event :=
  match filter with
  | .str f =>
    if !e.initOk then
      (.error (.jqError "Failed to initialize jq"), [])
    else if !e.compileOk f then
      let error := e.compileErr f
      if error.isValid && error.kindIsString then
        (.error (.compileError error.strContent), [.initE, .teardownE])
      else
        (.error (.compileError "Syntax error in jq filter"), [.initE, .teardownE])
    else
      (.ok .tru, [.initE, .teardownE])
  | _ => (.error (.typeError "wrong argument type (expected String)"), [])

/-- Count of `jq_teardown` calls in an event list. -/
def teardownCount (l : List Event) : Nat := l.count .teardownE

/-- Count of successful `jq_init` calls in an event list. -/
def initCount (l : List Event) : Nat := l.count .initE

/-! ### Helper definitions for the theorems -/

/-- The text the Result Formatter produces for a value when
serialization succeeds: the raw string content on the raw-string path,
the serialized text otherwise (the success value of
`jv_to_json_string`). -/
def fmtStr (dump : Jv → Bool → Bool → Jv) (raw compact sort : Bool) (v : Jv) :
    String :=
  if raw && v.kindIsString then v.strContent
  else (dump v (!compact) sort).strContent

/-- The terminal marker of a modelled result stream: its first invalid
value, or the no-message end marker when every value is valid
(`jq_next` after exhaustion). -/
def firstInvalid : List Jv → Jv
  | [] => .invalid none
  | v :: rest => if v.isValid then firstInvalid rest else v

/-- When serialization yields a valid value, the formatter succeeds and
returns exactly `fmtStr`. -/
theorem jv_to_json_string_ok (dump : Jv → Bool → Bool → Jv) (v : Jv)
    (raw compact sort : Bool)
    (hdump : (dump v (!compact) sort).isValid = true) :
    jv_to_json_string dump v raw compact sort =
      .ok (fmtStr dump raw compact sort v) := by
  unfold jv_to_json_string fmtStr
  by_cases h : (raw && v.kindIsString) = true
  · simp [h]
  · simp [h, hdump]

/-- When serialization always succeeds, the multi-output loop collects
the formatter's outputs for the valid prefix of the stream, in order,
and reports the first invalid value as terminal marker. -/
theorem multiLoop_ok (dump : Jv → Bool → Bool → Jv) (raw compact sort : Bool)
    (s : List Jv)
    (hdump : ∀ v, (dump v (!compact) sort).isValid = true) :
    multiLoop dump raw compact sort s =
      .ok ((s.takeWhile Jv.isValid).map (fmtStr dump raw compact sort),
           firstInvalid s) := by
  induction s with
  | nil => rfl
  | cons v rest ih =>
    unfold multiLoop firstInvalid
    by_cases hv : v.isValid = true
    · simp [hv, jv_to_json_string_ok dump v raw compact sort (hdump v), ih,
        List.takeWhile_cons]
    · simp [hv, List.takeWhile_cons]

/-! ### Concrete engine instances used by witnesses and counterexamples -/

/-- An engine whose serializer (`jv_dump_string`) returns an invalid
value on every input: it exercises the defensive formatting-failure
path of `jv_to_json_string`. -/
def dumpFailEngine : Engine where
  initOk := true
  compileOk := fun _ => true
  compileErr := fun _ => .invalid none
  parse := fun _ => .nonstr 0
  stream := fun _ _ => [.nonstr 1]
  dump := fun _ _ _ => .invalid none

/-- An engine on which every filter fails to compile and the
compile-stage diagnostic is an invalid marker carrying no message. -/
def noMsgCompileFailEngine : Engine where
  initOk := true
  compileOk := fun _ => false
  compileErr := fun _ => .invalid none
  parse := fun _ => .nonstr 0
  stream := fun _ _ => []
  dump := fun _ _ _ => .str "x"

/-- An engine whose parser attaches a non-string diagnostic message to
the invalid parse result. -/
def parseNonStrMsgEngine : Engine where
  initOk := true
  compileOk := fun _ => true
  compileErr := fun _ => .invalid none
  parse := fun _ => .invalid (some (.nonstr 5))
  stream := fun _ _ => []
  dump := fun _ _ _ => .str "x"

/-- An engine whose evaluation terminates at once with an invalid
marker carrying a non-string diagnostic message. -/
def evalNonStrMsgEngine : Engine where
  initOk := true
  compileOk := fun _ => true
  compileErr := fun _ => .invalid none
  parse := fun _ => .nonstr 0
  stream := fun _ _ => [.invalid (some (.nonstr 7))]
  dump := fun _ _ _ => .str "x"

/-- An engine on which every filter fails to compile (with a string
diagnostic) and every input fails to parse: both the filter text and
the JSON input are bad at once. -/
def badBothEngine : Engine where
  initOk := true
  compileOk := fun _ => false
  compileErr := fun _ => .str "jq: error: syntax error, unexpected INVALID_CHARACTER"
  parse := fun _ => .invalid (some (.str "Unfinished JSON term"))
  stream := fun _ _ => []
  dump := fun _ _ _ => .str "x"

/-! ### Claim theorems -/

/-- C1: the claim states that the Engine Instance is torn down exactly
once on every exit path of `filter`, including the defensive
formatting-failure path where serialization produces an invalid value
and `JQ::RuntimeError` is raised.  The code contradicts this: the
`rb_raise` for that failure sits inside `jv_to_json_string`
(src/ext/jq/jq_ext.c line 52), called from `rb_jq_filter_impl` before
its `jq_teardown`, so that raise longjmps past every teardown call:
on an engine whose serializer yields an invalid value, the request
raises the runtime error with zero `jq_teardown` calls. -/
theorem C1_format_failure_skips_teardown :
    (rb_jq_filter_impl dumpFailEngine "0" "." false true false false).1 =
      .error (.runtimeError "Failed to convert result to JSON") ∧
    teardownCount (rb_jq_filter_impl dumpFailEngine "0" "." false true false false).2 = 0 ∧
    (rb_jq_filter_impl dumpFailEngine "0" "." false true false true).1 =
      .error (.runtimeError "Failed to convert result to JSON") ∧
    teardownCount (rb_jq_filter_impl dumpFailEngine "0" "." false true false true).2 = 0 :=
  ⟨rfl, rfl, rfl, rfl⟩

/-- C2 counterexample: the claim's fixed fallback message "Unknown
error" and its claim of identical fallback behaviour across all three
stages both fail on the code.  With a compile-stage diagnostic that is
an invalid marker with no message, the raised `JQ::CompileError`
carries "Syntax error in jq filter" (the compile stage never calls
`raise_jq_error`); the shared routine's fallback, used by the parse
and evaluation stages, is "Unknown jq error"; neither is "Unknown
error". -/
theorem C2_fallback_counterexample :
    (rb_jq_filter_impl noMsgCompileFailEngine "1" ". @@@ ." false true false false).1 =
      .error (.compileError "Syntax error in jq filter") ∧
    raise_jq_error (.invalid none) .runtimeK = .runtimeError "Unknown jq error" ∧
    "Syntax error in jq filter" ≠ "Unknown error" ∧
    "Unknown jq error" ≠ "Unknown error" :=
  ⟨rfl, rfl, by decide, by decide⟩

/-- C2 (amended): `raise_jq_error`, the shared raising routine used by
the parse stage and the evaluation stage (not by the compile stage),
raises its error-kind argument with the fixed fallback message
"Unknown jq error" whenever the diagnostic value handed to it is
invalid or is not a string — identically for every kind, only the kind
differing.  On concrete engines, a parse-stage diagnostic whose
attached message is a non-string value raises `JQ::ParseError
"Unknown jq error"` and an evaluation-stage terminal marker whose
message is a non-string value raises `JQ::RuntimeError "Unknown jq
error"`, while a compile failure with a message-less diagnostic is
handled inline with the distinct fallback "Syntax error in jq
filter". -/
theorem C2_fallback_amended :
    (∀ (k : ErrKind) (v : Jv),
       v.isValid = false ∨ v.kindIsString = false →
       raise_jq_error v k = mkErr k "Unknown jq error") ∧
    (rb_jq_filter_impl parseNonStrMsgEngine "nope" "." false true false false).1 =
      .error (.parseError "Unknown jq error") ∧
    (rb_jq_filter_impl evalNonStrMsgEngine "0" "." false true false false).1 =
      .error (.runtimeError "Unknown jq error") ∧
    (rb_jq_filter_impl noMsgCompileFailEngine "1" ". @@@ ." false true false false).1 =
      .error (.compileError "Syntax error in jq filter") := by
  refine ⟨fun k v h => ?_, rfl, rfl, rfl⟩
  unfold raise_jq_error
  rcases h with h | h <;> simp [h]

/-- C2 witness: the amended fallback rule applied at a concrete
invalid-no-message diagnostic and a concrete non-string diagnostic,
for two different kinds. -/
theorem C2_fallback_amended_witness :
    raise_jq_error (.invalid none) .parseK = mkErr .parseK "Unknown jq error" ∧
    raise_jq_error (.nonstr 3) .runtimeK = mkErr .runtimeK "Unknown jq error" :=
  ⟨C2_fallback_amended.1 .parseK (.invalid none) (Or.inl rfl),
   C2_fallback_amended.1 .runtimeK (.nonstr 3) (Or.inr rfl)⟩

/-- C3: filter compilation precedes JSON input parsing and evaluation.
For every engine and every filter text that fails to compile, `filter`
raises `JQ::CompileError` — never `JQ::ParseError`, whatever the JSON
input (in particular also when it is malformed) — and the request's
event trace is exactly init then teardown: `jv_parse` is never called
and `jq_start` (evaluation) is never reached. -/
theorem C3_compile_precedes_parse (e : Engine) (json_str filter_str : String)
    (raw compact sort multi : Bool)
    (hinit : e.initOk = true)
    (hc : e.compileOk filter_str = false) :
    (∃ msg, (rb_jq_filter_impl e json_str filter_str raw compact sort multi).1 =
        .error (.compileError msg)) ∧
    (rb_jq_filter_impl e json_str filter_str raw compact sort multi).2 =
      [.initE, .teardownE] ∧
    Event.parseE ∉ (rb_jq_filter_impl e json_str filter_str raw compact sort multi).2 ∧
    Event.startE ∉ (rb_jq_filter_impl e json_str filter_str raw compact sort multi).2 := by
  unfold rb_jq_filter_impl
  simp only [hinit, hc, Bool.not_true, Bool.not_false, Bool.false_eq_true,
    if_false, if_true]
  by_cases h : ((e.compileErr filter_str).isValid &&
      (e.compileErr filter_str).kindIsString) = true
  · simp [h]
  · simp [h]

/-- C3 witness: on an engine where the filter fails to compile and the
JSON input is also malformed, the request raises `JQ::CompileError` and
neither parses nor evaluates. -/
theorem C3_compile_precedes_parse_witness :
    (∃ msg, (rb_jq_filter_impl badBothEngine "\x7b" ". @@@ ." false true false false).1 =
        .error (.compileError msg)) ∧
    (rb_jq_filter_impl badBothEngine "\x7b" ". @@@ ." false true false false).2 =
      [.initE, .teardownE] ∧
    Event.parseE ∉ (rb_jq_filter_impl badBothEngine "\x7b" ". @@@ ." false true false false).2 ∧
    Event.startE ∉ (rb_jq_filter_impl badBothEngine "\x7b" ". @@@ ." false true false false).2 :=
  C3_compile_precedes_parse badBothEngine "\x7b" ". @@@ ." false true false false rfl rfl

/-- C4: in multiple-output mode, for every engine with a compilable
filter, well-formed JSON input, a serializer that succeeds on the
produced values, and a message-less terminal marker, `filter` returns
the ordered list of the Result Formatter's outputs for exactly the
valid values the engine produces before its terminal invalid marker, in
production order; the list's length equals the number of those values,
and each formatted element is precisely what `jv_to_json_string`
returns for the corresponding value. -/
theorem C4_multi_output_list (e : Engine) (json_str filter_str : String)
    (raw compact sort : Bool)
    (hinit : e.initOk = true)
    (hc : e.compileOk filter_str = true)
    (hp : (e.parse json_str).isValid = true)
    (hdump : ∀ v, (e.dump v (!compact) sort).isValid = true)
    (hterm : (firstInvalid (e.stream filter_str (e.parse json_str))).invalidHasMsg
       = false) :
    (rb_jq_filter_impl e json_str filter_str raw compact sort true).1 =
      .ok (.list (((e.stream filter_str (e.parse json_str)).takeWhile Jv.isValid).map
            (fmtStr e.dump raw compact sort))) ∧
    (((e.stream filter_str (e.parse json_str)).takeWhile Jv.isValid).map
        (fmtStr e.dump raw compact sort)).length =
      ((e.stream filter_str (e.parse json_str)).takeWhile Jv.isValid).length ∧
    (∀ v, jv_to_json_string e.dump v raw compact sort =
       .ok (fmtStr e.dump raw compact sort v)) := by
  refine ⟨?_, List.length_map _ _, fun v => jv_to_json_string_ok e.dump v raw compact sort (hdump v)⟩
  unfold rb_jq_filter_impl
  simp only [hinit, hc, hp, Bool.not_true, Bool.false_eq_true, if_false]
  rw [multiLoop_ok e.dump raw compact sort _ hdump]
  simp [hterm]

/-- An engine producing two valid values, then an invalid value, then a
stray value: the valid prefix has exactly two elements.  Its serializer
returns the fixed text "D" for every value. -/
def twoValsEngine : Engine where
  initOk := true
  compileOk := fun _ => true
  compileErr := fun _ => .invalid none
  parse := fun _ => .nonstr 0
  stream := fun _ _ => [.nonstr 1, .str "a", .invalid none, .nonstr 9]
  dump := fun _ _ _ => .str "D"

/-- C4 witness: the two valid stream values are formatted, in order,
into a two-element list. -/
theorem C4_multi_output_list_witness :
    (rb_jq_filter_impl twoValsEngine "[1,2]" ".x" false true false true).1 =
      .ok (.list ["D", "D"]) :=
  (C4_multi_output_list twoValsEngine "[1,2]" ".x" false true false rfl rfl rfl
    (fun _ => rfl) rfl).1.trans rfl

/-- C5: in multiple-output mode (engine compilable, input well-formed,
serializer succeeding on the produced values), when the terminal
invalid marker carries a message the request raises `JQ::RuntimeError`
(built by the shared raising routine from that message) and never
returns a list — the partial results accumulated before the marker are
discarded; when the terminal marker carries no message, the request
returns exactly the accumulated ordered list of formatted values. -/
theorem C5_terminal_marker (e : Engine) (json_str filter_str : String)
    (raw compact sort : Bool)
    (hinit : e.initOk = true)
    (hc : e.compileOk filter_str = true)
    (hp : (e.parse json_str).isValid = true)
    (hdump : ∀ v, (e.dump v (!compact) sort).isValid = true) :
    (∀ m, firstInvalid (e.stream filter_str (e.parse json_str)) = .invalid (some m) →
       (∃ msg, (rb_jq_filter_impl e json_str filter_str raw compact sort true).1 =
          .error (.runtimeError msg)) ∧
       (rb_jq_filter_impl e json_str filter_str raw compact sort true).1 =
         .error (raise_jq_error m .runtimeK) ∧
       (∀ l, (rb_jq_filter_impl e json_str filter_str raw compact sort true).1 ≠
          .ok (.list l))) ∧
    (firstInvalid (e.stream filter_str (e.parse json_str)) = .invalid none →
       (rb_jq_filter_impl e json_str filter_str raw compact sort true).1 =
         .ok (.list (((e.stream filter_str (e.parse json_str)).takeWhile Jv.isValid).map
               (fmtStr e.dump raw compact sort)))) := by
  constructor
  · intro m hm
    have h1 : (rb_jq_filter_impl e json_str filter_str raw compact sort true).1 =
        .error (raise_jq_error m .runtimeK) := by
      unfold rb_jq_filter_impl
      simp only [hinit, hc, hp, Bool.not_true, Bool.false_eq_true, if_false]
      rw [multiLoop_ok e.dump raw compact sort _ hdump, hm]
      simp [Jv.invalidHasMsg, Jv.invalidGetMsg]
    refine ⟨?_, h1, ?_⟩
    · by_cases hmv : (!m.isValid || !m.kindIsString) = true
      · exact ⟨"Unknown jq error", by rw [h1]; unfold raise_jq_error; simp [hmv, mkErr]⟩
      · exact ⟨m.strContent, by rw [h1]; unfold raise_jq_error; simp [hmv, mkErr]⟩
    · intro l hl
      rw [h1] at hl
      exact absurd hl (by simp)
  · intro hm
    unfold rb_jq_filter_impl
    simp only [hinit, hc, hp, Bool.not_true, Bool.false_eq_true, if_false]
    rw [multiLoop_ok e.dump raw compact sort _ hdump, hm]
    simp [Jv.invalidHasMsg]

/-- An engine whose stream yields one valid value and then an invalid
marker carrying the string message "err at item 2". -/
def midFailEngine : Engine where
  initOk := true
  compileOk := fun _ => true
  compileErr := fun _ => .invalid none
  parse := fun _ => .nonstr 0
  stream := fun _ _ => [.str "ok1", .invalid (some (.str "err at item 2")), .str "ok3"]
  dump := fun _ _ _ => .str "D"

/-- C5 witness: a mid-stream failure raises `JQ::RuntimeError` with the
marker's message and no list is returned, while on the message-less
engine from the C4 setup the accumulated list is returned. -/
theorem C5_terminal_marker_witness :
    (rb_jq_filter_impl midFailEngine "[1]" ".x" false true false true).1 =
      .error (raise_jq_error (.str "err at item 2") .runtimeK) ∧
    (rb_jq_filter_impl twoValsEngine "[1,2]" ".x" false true false true).1 =
      .ok (.list (((twoValsEngine.stream ".x" (twoValsEngine.parse "[1,2]")).takeWhile
          Jv.isValid).map (fmtStr twoValsEngine.dump false true false))) :=
  ⟨((C5_terminal_marker midFailEngine "[1]" ".x" false true false rfl rfl rfl
      (fun _ => rfl)).1 (.str "err at item 2") rfl).2.1,
   (C5_terminal_marker twoValsEngine "[1,2]" ".x" false true false rfl rfl rfl
      (fun _ => rfl)).2 rfl⟩

/-- C6: for every engine with a compilable filter and well-formed JSON
input whose evaluation produces zero results (the first `jq_next` pull
is the message-less invalid marker), `filter` in single-output mode
returns exactly the literal text "null" — both for arbitrary output
options and through the entry point with no options given, where
single-output mode is the default — with the engine torn down once. -/
theorem C6_zero_results_null (e : Engine) (json_str filter_str : String)
    (raw compact sort : Bool)
    (hinit : e.initOk = true)
    (hc : e.compileOk filter_str = true)
    (hp : (e.parse json_str).isValid = true)
    (hs : headNext (e.stream filter_str (e.parse json_str)) = .invalid none) :
    rb_jq_filter_impl e json_str filter_str raw compact sort false =
      (.ok (.str "null"), [.initE, .parseE, .startE, .teardownE]) ∧
    rb_jq_filter e json_str filter_str .nil =
      (.ok (.str "null"), [.initE, .parseE, .startE, .teardownE]) := by
  have key : ∀ r c so : Bool,
      rb_jq_filter_impl e json_str filter_str r c so false =
        (.ok (.str "null"), [.initE, .parseE, .startE, .teardownE]) := by
    intro r c so
    unfold rb_jq_filter_impl
    simp only [hinit, hc, hp, Bool.not_true, Bool.false_eq_true, if_false]
    simp [hs, Jv.isValid, Jv.invalidHasMsg]
  refine ⟨key raw compact sort, ?_⟩
  unfold rb_jq_filter
  simpa [NIL_P] using key false true false

/-- An engine whose evaluation produces no values at all. -/
def emptyStreamEngine : Engine where
  initOk := true
  compileOk := fun _ => true
  compileErr := fun _ => .invalid none
  parse := fun _ => .nonstr 0
  stream := fun _ _ => []
  dump := fun _ _ _ => .str "D"

/-- C6 witness: the zero-result request returns the text "null". -/
theorem C6_zero_results_null_witness :
    rb_jq_filter emptyStreamEngine "[]" ".xyz" .nil =
      (.ok (.str "null"), [.initE, .parseE, .startE, .teardownE]) :=
  (C6_zero_results_null emptyStreamEngine "[]" ".xyz" false true false rfl rfl rfl rfl).2

/-- A model instance for the Alice scenario: parsing yields an object
value, the `.name` evaluation yields the single string value "Alice",
and serialization of any value yields its JSON text (for the string
"Alice", the quoted form). -/
def aliceEngine : Engine where
  initOk := true
  compileOk := fun _ => true
  compileErr := fun _ => .invalid none
  parse := fun _ => .nonstr 0
  stream := fun _ _ => [.str "Alice"]
  dump := fun v _ _ => match v with
    | .str s => .str ("\"" ++ s ++ "\"")
    | _ => .str "obj"

/-- C7: for every serializer and value formatted with raw=true, a JSON
string value's UTF-8 content is returned directly (unquoted,
un-escaped), and any non-string value is serialized exactly as in
non-raw mode; in particular the request
filter('\x7b"name":"Alice"\x7d', '.name', raw_output: true) returns
the text "Alice". -/
theorem C7_raw_output (dump : Jv → Bool → Bool → Jv) (v : Jv)
    (compact sort : Bool) :
    (v.kindIsString = true →
       jv_to_json_string dump v true compact sort = .ok v.strContent) ∧
    (v.kindIsString = false →
       jv_to_json_string dump v true compact sort =
         jv_to_json_string dump v false compact sort) ∧
    (rb_jq_filter aliceEngine "\x7b\"name\":\"Alice\"\x7d" ".name"
        (.hash [("raw_output", .bool true)])).1 = .ok (.str "Alice") := by
  refine ⟨fun h => ?_, fun h => ?_, rfl⟩
  · unfold jv_to_json_string
    simp [h]
  · unfold jv_to_json_string
    simp [h]

/-- C7 witness: a string value under raw mode returns its content; a
non-string value under raw mode equals its non-raw serialization. -/
theorem C7_raw_output_witness :
    jv_to_json_string aliceEngine.dump (.str "hello") true true false =
      .ok (Jv.str "hello").strContent ∧
    jv_to_json_string aliceEngine.dump (.nonstr 2) true true false =
      jv_to_json_string aliceEngine.dump (.nonstr 2) false true false :=
  ⟨(C7_raw_output aliceEngine.dump (.str "hello") true false).1 rfl,
   (C7_raw_output aliceEngine.dump (.nonstr 2) true false).2.1 rfl⟩

/-- C8: `validate_filter!` returns exactly `true` for every filter
text that compiles and raises `JQ::CompileError` for every filter text
that does not; its event trace never contains a `jv_parse` or a
`jq_start` (no input parsing, no evaluation); and — the embedding being
pure, with no state threaded between calls — two consecutive
applications to the same valid filter text both return `true` with
identical traces, so nothing observable changes between the calls. -/
theorem C8_validate_filter (e : Engine) (f : String)
    (hinit : e.initOk = true) :
    (e.compileOk f = true →
       (rb_jq_validate_filter e (.str f), rb_jq_validate_filter e (.str f)) =
         ((.ok .tru, [.initE, .teardownE]), (.ok .tru, [.initE, .teardownE]))) ∧
    (e.compileOk f = false →
       ∃ msg, (rb_jq_validate_filter e (.str f)).1 = .error (.compileError msg)) ∧
    Event.parseE ∉ (rb_jq_validate_filter e (.str f)).2 ∧
    Event.startE ∉ (rb_jq_validate_filter e (.str f)).2 := by
  have hev : (rb_jq_validate_filter e (.str f)).2 = [.initE, .teardownE] := by
    unfold rb_jq_validate_filter
    simp only [hinit, Bool.not_true, Bool.false_eq_true, if_false]
    by_cases hcf : e.compileOk f = true
    · simp [hcf]
    · simp only [hcf, Bool.not_false, if_true]
      by_cases hd : ((e.compileErr f).isValid && (e.compileErr f).kindIsString) = true
      · simp [hd]
      · simp [hd]
  refine ⟨fun h => ?_, fun h => ?_, ?_, ?_⟩
  · unfold rb_jq_validate_filter
    simp [hinit, h]
  · unfold rb_jq_validate_filter
    simp only [hinit, h, Bool.not_true, Bool.not_false, Bool.false_eq_true,
      if_false, if_true]
    by_cases hd : ((e.compileErr f).isValid && (e.compileErr f).kindIsString) = true
    · exact ⟨(e.compileErr f).strContent, by simp [hd]⟩
    · exact ⟨"Syntax error in jq filter", by simp [hd]⟩
  · rw [hev]; simp
  · rw [hev]; simp

/-- C8 witness: on an engine that compiles everything, two consecutive
validations of the same filter both return `true`, and the trace holds
no parse and no evaluation start. -/
theorem C8_validate_filter_witness :
    (rb_jq_validate_filter emptyStreamEngine (.str ".name"),
     rb_jq_validate_filter emptyStreamEngine (.str ".name")) =
      ((.ok .tru, [.initE, .teardownE]), (.ok .tru, [.initE, .teardownE])) ∧
    Event.parseE ∉ (rb_jq_validate_filter emptyStreamEngine (.str ".name")).2 ∧
    Event.startE ∉ (rb_jq_validate_filter emptyStreamEngine (.str ".name")).2 :=
  ⟨(C8_validate_filter emptyStreamEngine ".name" rfl).1 rfl,
   (C8_validate_filter emptyStreamEngine ".name" rfl).2.2.1,
   (C8_validate_filter emptyStreamEngine ".name" rfl).2.2.2⟩

/-- C9: for every engine with a compilable filter whose JSON input
fails to parse: when the parser attaches a string diagnostic message to
the invalid result, the request raises `JQ::ParseError` with exactly
that message; when it attaches no message, the request raises
`JQ::ParseError` with the generic message "Invalid JSON input"; in
both cases the event trace is init, parse, teardown — the teardown
precedes the raise (the raise being the returned error, after all
recorded events). -/
theorem C9_parse_failure (e : Engine) (json_str filter_str : String)
    (raw compact sort multi : Bool)
    (hinit : e.initOk = true)
    (hc : e.compileOk filter_str = true) :
    (∀ s, e.parse json_str = .invalid (some (.str s)) →
       rb_jq_filter_impl e json_str filter_str raw compact sort multi =
         (.error (.parseError s), [.initE, .parseE, .teardownE])) ∧
    (e.parse json_str = .invalid none →
       rb_jq_filter_impl e json_str filter_str raw compact sort multi =
         (.error (.parseError "Invalid JSON input"),
          [.initE, .parseE, .teardownE])) := by
  constructor
  · intro s hp
    unfold rb_jq_filter_impl
    simp only [hinit, hc, Bool.not_true, Bool.false_eq_true, if_false, hp]
    simp [Jv.isValid, Jv.invalidHasMsg, Jv.invalidGetMsg, raise_jq_error,
      Jv.kindIsString, Jv.strContent, mkErr]
  · intro hp
    unfold rb_jq_filter_impl
    simp only [hinit, hc, Bool.not_true, Bool.false_eq_true, if_false, hp]
    simp [Jv.isValid, Jv.invalidHasMsg]

/-- An engine (compiling everything) whose parser rejects every input
with the diagnostic message "Unfinished JSON term". -/
def parseMsgFailEngine : Engine where
  initOk := true
  compileOk := fun _ => true
  compileErr := fun _ => .invalid none
  parse := fun _ => .invalid (some (.str "Unfinished JSON term"))
  stream := fun _ _ => []
  dump := fun _ _ _ => .str "D"

/-- An engine (compiling everything) whose parser rejects every input
with no diagnostic message. -/
def parseNoMsgFailEngine : Engine where
  initOk := true
  compileOk := fun _ => true
  compileErr := fun _ => .invalid none
  parse := fun _ => .invalid none
  stream := fun _ _ => []
  dump := fun _ _ _ => .str "D"

/-- C9 witness: the diagnostic message is surfaced in the
`JQ::ParseError` when present, and "Invalid JSON input" is used when
absent, with teardown recorded before the raise in both cases. -/
theorem C9_parse_failure_witness :
    rb_jq_filter_impl parseMsgFailEngine "\x7b" "." false true false false =
      (.error (.parseError "Unfinished JSON term"),
       [.initE, .parseE, .teardownE]) ∧
    rb_jq_filter_impl parseNoMsgFailEngine "\x7b" "." false true false false =
      (.error (.parseError "Invalid JSON input"),
       [.initE, .parseE, .teardownE]) :=
  ⟨(C9_parse_failure parseMsgFailEngine "\x7b" "." false true false false rfl rfl).1
      "Unfinished JSON term" rfl,
   (C9_parse_failure parseNoMsgFailEngine "\x7b" "." false true false false rfl rfl).2 rfl⟩

/-- C10: a non-nil options argument that is not a hash makes `filter`
raise a host-level `TypeError` with an empty event trace — before any
engine instance is allocated (zero init events); a nil options
argument and an empty options hash both delegate to the implementation
with the four defaults raw_output=false, compact_output=true,
sort_keys=false, multiple_outputs=false. -/
theorem C10_options (e : Engine) (json_str filter_str : String) :
    (∀ opts : RVal, opts ≠ .nil → (∀ h, opts ≠ .hash h) →
       rb_jq_filter e json_str filter_str opts =
         (.error (.typeError "wrong argument type (expected Hash)"), []) ∧
       initCount (rb_jq_filter e json_str filter_str opts).2 = 0) ∧
    rb_jq_filter e json_str filter_str .nil =
      rb_jq_filter_impl e json_str filter_str false true false false ∧
    rb_jq_filter e json_str filter_str (.hash []) =
      rb_jq_filter_impl e json_str filter_str false true false false := by
  refine ⟨fun opts h1 h2 => ?_, rfl, rfl⟩
  cases opts with
  | nil => exact absurd rfl h1
  | hash h => exact absurd rfl (h2 h)
  | bool b => exact ⟨rfl, rfl⟩
  | str s => exact ⟨rfl, rfl⟩
  | other => exact ⟨rfl, rfl⟩

/-- C10 witness: a non-hash, non-nil options value (here a plain
non-hash object) raises `TypeError` with no engine allocated. -/
theorem C10_options_witness :
    rb_jq_filter emptyStreamEngine "1" "." .other =
      (.error (.typeError "wrong argument type (expected Hash)"), []) ∧
    initCount (rb_jq_filter emptyStreamEngine "1" "." .other).2 = 0 :=
  (C10_options emptyStreamEngine "1" ".").1 .other (fun h => nomatch h)
    (fun _ hh => nomatch hh)
